import Mathlib

/-
Verification of the YtF Telegram → YouTube upload bot.

Shallow embedding of the Python sources:
  bot.py            → the dialogue controller (command / media / text handlers)
  youtube_client.py → OAuth credential refresh and the chunked-upload retry loop
  video_handler.py  → upload orchestration (download, metadata, cleanup)
  database.py       → the persisted per-user stores (users, oauth_tokens, uploads)

External effects (Telegram transport, Google OAuth endpoint, the upload
transport, the wall clock, the random part of generated file names) are
supplied by an explicit environment `Env`; the MongoDB collections are modelled
as association lists inside `Db`; the temporary-file directory is modelled as
an association list `Fs` from path to file size.  Each Python handler becomes a
pure function from the pre-state to the reply finally shown to the user plus
the post-state.  Replies are modelled by an inductive `Reply`: string literals
from the source are kept verbatim; messages produced by `HTMLFormatter`
helpers become constructors carrying the data passed to the helper.
-/

namespace YtF

/-- Python `str.strip()`: drop whitespace from both ends
(bot.py uses it on auth codes, titles and descriptions). -/
def py_strip (s : String) : String :=
  String.mk (((s.data.dropWhile Char.isWhitespace).reverse.dropWhile Char.isWhitespace).reverse)

/-- Python `str.lower()` (bot.py compares the description against 'skip' with it). -/
def py_lower (s : String) : String :=
  String.mk (s.data.map Char.toLower)

/-- Python truthiness of an optional string (`None` and `""` are falsy). -/
def pyTruthy : Option String → Bool
  | none => false
  | some s => !(s == "")

/-- Python `a or b` for an optional string `a` and a string default `b`. -/
def pyOr (a : Option String) (b : String) : String :=
  match a with
  | none => b
  | some s => if s == "" then b else s

/-! ## Token data and credential refresh (youtube_client.py) -/

/-- The token dictionary built by `exchange_code_for_token` and stored per user. -/
structure TokenData where
  token : String
  refresh_token : Option String
  token_uri : String
  client_id : String
  client_secret : String
  scopes : List String
deriving DecidableEq, Repr

/-- One outcome of `insert_request.next_chunk()` in `upload_video`. -/
inductive ChunkResult
  /-- a chunk went through, upload not finished (`status` returned, `response is None`) -/
  | progress
  /-- upload finished, the response carries the platform-assigned video id -/
  | complete (video_id : String)
  /-- `HttpError` with the given HTTP status -/
  | httpError (status : Nat)
  /-- any other exception during the chunk transfer -/
  | otherError
deriving DecidableEq, Repr

/-- Outcome of the `download_media` call in `_download_video`: the transport
either returns normally having written `size` bytes, or raises after writing a
partial file of `size` bytes, or raises before creating the file. -/
inductive DownloadOutcome
  | written (size : Nat)
  | raisedAfterWrite (size : Nat)
  | raisedNoWrite
deriving DecidableEq, Repr

/-- Environment: everything the handlers obtain from outside the process
(the clock, Google's OAuth endpoints, the upload transport, the Telegram
download transport, the timestamp-generated default file name). -/
structure Env where
  /-- `datetime.now()` -/
  now : Nat
  /-- `youtube_client.get_oauth_url()` -/
  oauth_url : String
  /-- timestamp part of the generated default file name -/
  gen_name : String
  /-- `youtube_client.exchange_code_for_token` (None on failure) -/
  exchange_code : String → Option TokenData
  /-- `credentials.expired` for the credential built from the token data -/
  expired : TokenData → Bool
  /-- result of `credentials.refresh(Request())`: the new access token and the
  refresh token afterwards -/
  do_refresh : TokenData → String × Option String
  /-- behaviour of `message._client.download_media` -/
  download : DownloadOutcome
  /-- successive outcomes of `insert_request.next_chunk()` -/
  transport : List ChunkResult

/-- `YouTubeClient.refresh_token_if_needed`: refresh when the credential is
expired and a refresh token is present, otherwise return unchanged.  The
second component counts refresh round-trips performed (0 or 1). -/
def refresh_token_if_needed (env : Env) (token_data : TokenData) : TokenData × Nat :=
  if env.expired token_data && pyTruthy token_data.refresh_token then
    let r := env.do_refresh token_data
    ({ token_data with token := r.1, refresh_token := r.2 }, 1)
  else
    (token_data, 0)

/-- The metadata `body` dictionary submitted in `upload_video`. -/
structure VideoBody where
  title : String
  description : String
  tags : List String
  categoryId : String
  privacyStatus : String
  selfDeclaredMadeForKids : Bool
deriving DecidableEq, Repr

/-- Whether `upload_video` classifies an HTTP status as retriable
(`e.resp.status in [500, 502, 503, 504]`). -/
def retriable_status (s : Nat) : Bool :=
  s == 500 || s == 502 || s == 503 || s == 504

/-- The `while response is None` retry loop of `upload_video`.  Consumes one
transport outcome per `next_chunk()` call, threading the `retry` counter.
Returns (result, number of transmission attempts made, backoff sleeps
performed in order).  An empty transport list means the loop would call
`next_chunk` again; the simulated transports used below never run out. -/
def next_chunk_loop : List ChunkResult → Nat → Option String × Nat × List Nat
  | [], _ => (none, 0, [])
  | .progress :: rest, retry =>
    let r := next_chunk_loop rest retry
    (r.1, r.2.1 + 1, r.2.2)
  | .complete video_id :: _, _ => (some video_id, 1, [])
  | .httpError s :: rest, retry =>
    if retriable_status s then
      if retry + 1 > 5 then
        (none, 1, [])
      else
        let r := next_chunk_loop rest (retry + 1)
        (r.1, r.2.1 + 1, 2 ^ (retry + 1) :: r.2.2)
    else
      (none, 1, [])
  | .otherError :: _, _ => (none, 1, [])

/-- Result of one `YouTubeClient.upload_video` call: the returned video id (or
None), the metadata body it submitted, the (possibly refreshed) token data it
used, how many refresh round-trips happened, and the attempt/backoff trace of
the chunk loop. -/
structure UploadResult where
  videoId : Option String
  body : VideoBody
  tokenUsed : TokenData
  refreshCount : Nat
  attempts : Nat
  sleeps : List Nat
deriving DecidableEq, Repr

/-- `YouTubeClient.upload_video` (youtube_client.py lines 127-202). -/
def upload_video (env : Env) (_file_path : String) (token_data : TokenData)
    (title : String) (description : String) (tags : Option (List String))
    (privacy_status : String) : UploadResult :=
  let tr := refresh_token_if_needed env token_data
  let body : VideoBody :=
    { title := title
      description := description
      tags := tags.getD []
      categoryId := "22"
      privacyStatus := privacy_status
      selfDeclaredMadeForKids := false }
  let r := next_chunk_loop env.transport 0
  { videoId := r.1, body := body, tokenUsed := tr.1, refreshCount := tr.2
    attempts := r.2.1, sleeps := r.2.2 }

/-! ## Persistence layer (database.py) -/

/-- One document of the `uploads` collection (`Database.add_upload_record`). -/
structure UploadRecord where
  user_id : Nat
  video_id : String
  title : String
  description : String
  file_name : String
  file_size : Nat
  duration : Option Nat
deriving DecidableEq, Repr

/-- The MongoDB database: the `users`, `oauth_tokens` and `uploads`
collections, keyed as in `Database.create_indexes` (unique `user_id` for users
and tokens).  `authenticated` is the set of users whose `is_authenticated`
flag is true; upload counts and activity timestamps are derivable and not
claimed about, so they are not tracked. -/
structure Db where
  users : List Nat
  authenticated : List Nat
  oauth_tokens : List (Nat × TokenData)
  uploads : List UploadRecord
deriving DecidableEq, Repr

/-- `Database.add_user`: insert; a duplicate key leaves the collection as is. -/
def Db.add_user (db : Db) (uid : Nat) : Db :=
  if uid ∈ db.users then db else { db with users := uid :: db.users }

/-- `Database.set_user_authenticated`. -/
def Db.set_user_authenticated (db : Db) (uid : Nat) (b : Bool) : Db :=
  if b then
    { db with authenticated := if uid ∈ db.authenticated then db.authenticated
                               else uid :: db.authenticated }
  else
    { db with authenticated := db.authenticated.filter (fun u => !(u == uid)) }

/-- `Database.save_oauth_token`: `replace_one` with `upsert=True` on the
unique `user_id` key. -/
def Db.save_oauth_token (db : Db) (uid : Nat) (token_data : TokenData) : Db :=
  { db with oauth_tokens :=
      (uid, token_data) :: db.oauth_tokens.filter (fun p => !(p.1 == uid)) }

/-- `Database.get_oauth_token`. -/
def Db.get_oauth_token (db : Db) (uid : Nat) : Option TokenData :=
  db.oauth_tokens.lookup uid

/-- `Database.add_upload_record` (the record list is kept newest first,
matching the `upload_date` descending sort used on reads). -/
def Db.add_upload_record (db : Db) (r : UploadRecord) : Db :=
  { db with uploads := r :: db.uploads }

/-- `Database.get_user_uploads` with its `limit`. -/
def Db.get_user_uploads (db : Db) (uid : Nat) (limit : Nat) : List UploadRecord :=
  (db.uploads.filter (fun r => r.user_id == uid)).take limit

/-- `Database.get_total_uploads`. -/
def Db.get_total_uploads (db : Db) : Nat := db.uploads.length

/-- `Database.get_total_users`. -/
def Db.get_total_users (db : Db) : Nat := db.users.length

/-- `YouTubeBot.ensure_user_in_db`: `add_user` then `update_user_activity`
(the activity timestamp is not tracked in the model). -/
def ensure_user_in_db (db : Db) (uid : Nat) : Db :=
  db.add_user uid

/-! ## Conversation state (bot.py `self.user_states`) -/

/-- The `'state'` strings stored in a user-state dictionary. -/
inductive StepTag
  | waiting_auth_code
  | waiting_video
  | waiting_title
  | waiting_description
deriving DecidableEq, Repr

/-- The per-file fields placed into the user state by `process_video`. -/
structure FileInfo where
  file_id : String
  file_name : String
  file_size : Nat
  duration : Option Nat
  mime_type : Option String
deriving DecidableEq, Repr

/-- One user-state dictionary from `self.user_states`. -/
structure UserState where
  state : StepTag
  timestamp : Nat
  file : Option FileInfo := none
  title : Option String := none
  description : Option String := none
deriving DecidableEq, Repr

/-- The `self.user_states` dictionary, keyed by user id. -/
def StateMap : Type := List (Nat × UserState)

instance : DecidableEq StateMap := inferInstanceAs (DecidableEq (List (Nat × UserState)))

/-- dictionary write `self.user_states[uid] = st`. -/
def set_state (uid : Nat) (st : UserState) (states : StateMap) : StateMap :=
  (uid, st) :: states.filter (fun p => !(p.1 == uid))

/-- dictionary delete `del self.user_states[uid]` (also models the guarded
`if uid in self.user_states: del ...`). -/
def delete_state (uid : Nat) (states : StateMap) : StateMap :=
  states.filter (fun p => !(p.1 == uid))

/-- dictionary read `self.user_states.get(uid)`. -/
def get_state (states : StateMap) (uid : Nat) : Option UserState :=
  states.lookup uid

/-! ## Temporary files (video_handler.py) -/

/-- The temp directory as a map from path to file size in bytes. -/
def Fs : Type := List (String × Nat)

instance : DecidableEq Fs := inferInstanceAs (DecidableEq (List (String × Nat)))

/-- writing a file (truncating any previous one at that path). -/
def write_file (fs : Fs) (path : String) (size : Nat) : Fs :=
  (path, size) :: fs.filter (fun p => !(p.1 == path))

/-- `os.remove`, guarded by `os.path.exists` as in `_cleanup_file`. -/
def remove_file (fs : Fs) (path : String) : Fs :=
  fs.filter (fun p => !(p.1 == path))

/-- `os.path.getsize`, None when the path does not exist. -/
def get_size (fs : Fs) (path : String) : Option Nat :=
  fs.lookup path

/-! ## Replies -/

/-- An outbound message: the content of the last message sent (or edited into
the progress message) by a handler.  String literals from the source are kept;
`HTMLFormatter`-built messages carry the data given to the formatter. -/
inductive Reply
  | text (s : String)
  | welcome (first_name : String)
  | authMessage (url : String)
  | authSuccess (first_name : String)
  | historyMsg (uploads : List UploadRecord)
  | statsMsg (total_users total_uploads user_uploads : Nat)
  | helpMsg
  | uploadPrompt
  | videoDetails (file_name : String) (file_size : Nat)
  | titleSet (title : String)
  | fileTooLarge (file_size max_file_size : Nat)
  | uploadSuccess (video_data : UploadRecord)
  | uploadError (msg : String)
deriving DecidableEq, Repr

/-! ## Upload orchestration (video_handler.py) -/

/-- `VideoHandler._download_video`: write the Telegram download to the
temporary path and return it only when the file exists with positive size;
exceptions (including a missing `file_id`, handled before this is reached)
yield None, leaving whatever was written on disk. -/
def download_video (env : Env) (fs : Fs) (temp_file_path : String) : Option String × Fs :=
  match env.download with
  | .written size =>
    let fs := write_file fs temp_file_path size
    if 0 < (get_size fs temp_file_path).getD 0 then (some temp_file_path, fs) else (none, fs)
  | .raisedAfterWrite size => (none, write_file fs temp_file_path size)
  | .raisedNoWrite => (none, fs)

/-- The temporary path `_download_video` builds for a pending file
(`os.path.join(self.temp_dir, f"temp_{file_id}_{file_name}")`; the
temp-directory prefix is constant and omitted). -/
def temp_path (fi : FileInfo) : String :=
  "temp_" ++ fi.file_id ++ "_" ++ fi.file_name

/-- `VideoHandler._upload_with_progress`: runs `upload_video` with
`privacy_status="private"` and no tags while a separate task edits coarse
progress messages (the progress edits do not affect the result). -/
def upload_with_progress (env : Env) (file_path : String) (token_data : TokenData)
    (title : String) (description : String) : UploadResult :=
  upload_video env file_path token_data title description none "private"

/-- `VideoHandler.upload_video_to_youtube` (video_handler.py lines 87-169):
fetch the stored credential, download the pending file, build title and
description (appending the bot signature), upload with `privacy_status
"private"`, record the upload on success, and — once the download succeeded —
remove the temporary file in a `finally` on both the success and the failure
path.  A missing pending-file record raises a KeyError inside
`_download_video`, which is caught there and surfaces as a failed download. -/
def upload_video_to_youtube (env : Env) (uid : Nat) (db : Db) (user_state : UserState)
    (fs : Fs) : Reply × Db × Fs :=
  match db.get_oauth_token uid with
  | none => (.text "❌ Authentication required. Please use /auth command.", db, fs)
  | some token_data =>
    match user_state.file with
    | none => (.text "❌ Failed to download video file.", db, fs)
    | some fi =>
      let dl := download_video env fs (temp_path fi)
      match dl.1 with
      | none => (.text "❌ Failed to download video file.", db, dl.2)
      | some file_path =>
        let title := user_state.title.getD "Untitled Video"
        let description := user_state.description.getD ""
        let description :=
          (if description == "" then description else description ++ "\n\n")
            ++ "📤 Uploaded via YouTube Uploader Bot"
        let ur := upload_with_progress env file_path token_data title description
        match ur.videoId with
        | some video_id =>
          let video_data : UploadRecord :=
            { user_id := uid, video_id := video_id, title := title
              description := description, file_name := fi.file_name
              file_size := fi.file_size, duration := fi.duration }
          (.uploadSuccess video_data, db.add_upload_record video_data,
            remove_file dl.2 file_path)
        | none =>
          (.uploadError "Upload failed. Please try again.", db, remove_file dl.2 file_path)

/-- Metadata of an incoming Telegram video/document message. -/
structure IncomingFile where
  from_video : Bool
  file_id : String
  file_name : Option String
  file_size : Nat
  duration : Option Nat
  mime_type : Option String
deriving DecidableEq, Repr

/-- `VideoHandler.supported_formats`. -/
def supported_formats : List String :=
  ["video/mp4", "video/avi", "video/quicktime", "video/x-msvideo",
   "video/x-flv", "video/x-matroska", "video/webm", "application/octet-stream"]

/-- `VideoHandler.process_video`: size and format validation, then store the
pending file and enter the title step. -/
def process_video (env : Env) (max_file_size : Nat) (uid : Nat) (states : StateMap)
    (f : IncomingFile) : Reply × StateMap :=
  let file_name :=
    if f.from_video then pyOr f.file_name ("video_" ++ env.gen_name ++ ".mp4")
    else pyOr f.file_name ("video_" ++ env.gen_name)
  let duration := if f.from_video then f.duration else none
  if max_file_size < f.file_size then
    (.fileTooLarge f.file_size max_file_size, states)
  else if pyTruthy f.mime_type && !(supported_formats.contains (f.mime_type.getD "")) then
    (.text "❌ Unsupported file format. Please send MP4, AVI, MOV, WMV, FLV, or MKV files.",
      states)
  else
    (.videoDetails file_name f.file_size,
      set_state uid
        { state := .waiting_title, timestamp := env.now
          file := some { file_id := f.file_id, file_name := file_name
                         file_size := f.file_size, duration := duration
                         mime_type := f.mime_type } }
        states)

/-! ## Dialogue controller (bot.py) -/

/-- Bot configuration loaded at start (`ALLOWED_USERS`, `MAX_FILE_SIZE`). -/
structure BotCfg where
  allowed_users : List Nat
  max_file_size : Nat
deriving DecidableEq, Repr

/-- `YouTubeBot.is_user_allowed`: allowed when the allow-list is empty or
contains the id. -/
def is_user_allowed (allowed_users : List Nat) (uid : Nat) : Bool :=
  allowed_users.isEmpty || allowed_users.contains uid

/-- The uniform rejection sent on a failed allow-list check. -/
def not_authorized_reply : Reply :=
  .text "❌ You are not authorized to use this bot."

/-- `YouTubeBot.handle_start`. -/
def handle_start (cfg : BotCfg) (uid : Nat) (first_name : Option String)
    (db : Db) (states : StateMap) : Reply × StateMap × Db :=
  if is_user_allowed cfg.allowed_users uid then
    let db := ensure_user_in_db db uid
    (.welcome (pyOr first_name "User"), states, db)
  else
    (not_authorized_reply, states, db)

/-- `YouTubeBot.handle_auth`. -/
def handle_auth (env : Env) (cfg : BotCfg) (uid : Nat) (db : Db) (states : StateMap) :
    Reply × StateMap × Db :=
  if is_user_allowed cfg.allowed_users uid then
    let db := ensure_user_in_db db uid
    match db.get_oauth_token uid with
    | some _ =>
      (.text "✅ You are already authenticated! You can start uploading videos.", states, db)
    | none =>
      (.authMessage env.oauth_url,
        set_state uid { state := .waiting_auth_code, timestamp := env.now } states, db)
  else
    (not_authorized_reply, states, db)

/-- `YouTubeBot.handle_upload_command`. -/
def handle_upload_command (env : Env) (cfg : BotCfg) (uid : Nat) (db : Db)
    (states : StateMap) : Reply × StateMap × Db :=
  if is_user_allowed cfg.allowed_users uid then
    let db := ensure_user_in_db db uid
    match db.get_oauth_token uid with
    | none => (.text "🔐 Please authenticate first using /auth command.", states, db)
    | some _ =>
      (.uploadPrompt,
        set_state uid { state := .waiting_video, timestamp := env.now } states, db)
  else
    (not_authorized_reply, states, db)

/-- `YouTubeBot.handle_history`. -/
def handle_history (cfg : BotCfg) (uid : Nat) (db : Db) (states : StateMap) :
    Reply × StateMap × Db :=
  if is_user_allowed cfg.allowed_users uid then
    let db := ensure_user_in_db db uid
    (.historyMsg (db.get_user_uploads uid 10), states, db)
  else
    (not_authorized_reply, states, db)

/-- `YouTubeBot.handle_stats` (the per-user count uses `get_user_uploads`
with its default limit of 10). -/
def handle_stats (cfg : BotCfg) (uid : Nat) (db : Db) (states : StateMap) :
    Reply × StateMap × Db :=
  if is_user_allowed cfg.allowed_users uid then
    let db := ensure_user_in_db db uid
    (.statsMsg db.get_total_users db.get_total_uploads (db.get_user_uploads uid 10).length,
      states, db)
  else
    (not_authorized_reply, states, db)

/-- `YouTubeBot.handle_help` (no database write). -/
def handle_help (cfg : BotCfg) (uid : Nat) (db : Db) (states : StateMap) :
    Reply × StateMap × Db :=
  if is_user_allowed cfg.allowed_users uid then
    (.helpMsg, states, db)
  else
    (not_authorized_reply, states, db)

/-- `YouTubeBot.handle_cancel` (bot.py lines 335-351): performs no allow-list
check; deletes any existing state and acknowledges. -/
def handle_cancel (uid : Nat) (db : Db) (states : StateMap) : Reply × StateMap × Db :=
  match get_state states uid with
  | some _ => (.text "✅ Operation cancelled.", delete_state uid states, db)
  | none => (.text "ℹ️ No operation to cancel.", states, db)

/-- `YouTubeBot.handle_video`. -/
def handle_video (env : Env) (cfg : BotCfg) (uid : Nat) (db : Db) (states : StateMap)
    (f : IncomingFile) : Reply × StateMap × Db :=
  if is_user_allowed cfg.allowed_users uid then
    let db := ensure_user_in_db db uid
    match db.get_oauth_token uid with
    | none => (.text "🔐 Please authenticate first using /auth command.", states, db)
    | some _ =>
      let r := process_video env cfg.max_file_size uid states f
      (r.1, r.2, db)
  else
    (not_authorized_reply, states, db)

/-- `YouTubeBot._handle_auth_code`: strip the code, exchange it, persist the
token and clear the state on success. -/
def handle_auth_code (env : Env) (uid : Nat) (first_name : Option String) (db : Db)
    (states : StateMap) (text : String) : Reply × StateMap × Db :=
  let auth_code := py_strip text
  match env.exchange_code auth_code with
  | some token_data =>
    let db := (db.save_oauth_token uid token_data).set_user_authenticated uid true
    (.authSuccess (pyOr first_name "User"), delete_state uid states, db)
  | none =>
    (.text "❌ Invalid authorization code. Please try /auth again.", states, db)

/-- `YouTubeBot._handle_video_title` (bot.py lines 454-478): strip, reject
over-long titles, otherwise store the title and advance to the description
step.  A missing state record raises a KeyError caught by the handler's
`except`, yielding the generic error reply. -/
def handle_video_title (uid : Nat) (states : StateMap) (text : String) :
    Reply × StateMap :=
  let title := py_strip text
  if 100 < title.length then
    (.text "❌ Title is too long. Please keep it under 100 characters.", states)
  else
    match get_state states uid with
    | none => (.text "❌ An error occurred. Please try again.", states)
    | some st =>
      (.titleSet title,
        set_state uid { st with title := some title, state := .waiting_description } states)

/-- `YouTubeBot._handle_video_description` (bot.py lines 480-505): strip,
map a case-insensitive "skip" to the empty description, store it, run the
upload orchestration synchronously, then delete the state.  A missing state
record raises a KeyError caught by the handler's `except`. -/
def handle_video_description (env : Env) (uid : Nat) (db : Db) (states : StateMap)
    (fs : Fs) (text : String) : Reply × StateMap × Db × Fs :=
  let description := py_strip text
  let description := if py_lower description == "skip" then "" else description
  match get_state states uid with
  | none => (.text "❌ An error occurred. Please try again.", states, db, fs)
  | some st =>
    let st := { st with description := some description }
    let states := set_state uid st states
    let out := upload_video_to_youtube env uid db st fs
    (out.1, delete_state uid states, out.2.1, out.2.2)

/-- `YouTubeBot.handle_text`: dispatch a non-command text message on the
current conversation state. -/
def handle_text (env : Env) (uid : Nat) (first_name : Option String) (db : Db)
    (states : StateMap) (fs : Fs) (text : String) : Reply × StateMap × Db × Fs :=
  match get_state states uid with
  | none =>
    (.text "ℹ️ Send /start to begin or /help for available commands.", states, db, fs)
  | some st =>
    match st.state with
    | .waiting_auth_code =>
      let r := handle_auth_code env uid first_name db states text
      (r.1, r.2.1, r.2.2, fs)
    | .waiting_title =>
      let r := handle_video_title uid states text
      (r.1, r.2, db, fs)
    | .waiting_description => handle_video_description env uid db states fs text
    | .waiting_video =>
      (.text "ℹ️ I don't understand. Use /help for available commands.", states, db, fs)

/-- The recognized slash commands (bot.py `_register_handlers`). -/
inductive Cmd
  | start
  | auth
  | upload
  | history
  | stats
  | help
  | cancel
deriving DecidableEq, Repr

/-- An inbound Telegram update as classified by the registered handlers:
a recognized command, a video/document message, or any other text. -/
inductive InEvent
  | cmd (c : Cmd)
  | media (f : IncomingFile)
  | text (s : String)
deriving DecidableEq, Repr

/-- Dispatch of a recognized command to its handler. -/
def handle_command (env : Env) (cfg : BotCfg) (uid : Nat) (first_name : Option String)
    (db : Db) (states : StateMap) : Cmd → Reply × StateMap × Db
  | .start => handle_start cfg uid first_name db states
  | .auth => handle_auth env cfg uid db states
  | .upload => handle_upload_command env cfg uid db states
  | .history => handle_history cfg uid db states
  | .stats => handle_stats cfg uid db states
  | .help => handle_help cfg uid db states
  | .cancel => handle_cancel uid db states

/-- Top-level dispatch of one inbound update, mirroring the handler
registration order in `_register_handlers`. -/
def handle_update (env : Env) (cfg : BotCfg) (uid : Nat) (first_name : Option String)
    (db : Db) (states : StateMap) (fs : Fs) : InEvent → Reply × StateMap × Db × Fs
  | .cmd c =>
    let r := handle_command env cfg uid first_name db states c
    (r.1, r.2.1, r.2.2, fs)
  | .media f =>
    let r := handle_video env cfg uid db states f
    (r.1, r.2.1, r.2.2, fs)
  | .text s => handle_text env uid first_name db states fs s

/-- The commands and events guarded by the allow-list check in the source:
every command handler except `handle_cancel`, and the media handler. -/
def auth_gated : InEvent → Bool
  | .cmd .cancel => false
  | .cmd _ => true
  | .media _ => true
  | .text _ => false

/-! ## Helper lemmas -/

/-- Looking up a key in an association list from which that key was filtered
out yields nothing. -/
theorem lookup_erase_key {α β : Type} [BEq α] [LawfulBEq α] (k : α) (l : List (α × β)) :
    (l.filter (fun p => !(p.1 == k))).lookup k = none := by
  induction l with
  | nil => rfl
  | cons p t ih =>
    rcases p with ⟨a, b⟩
    by_cases h : a = k
    · subst h
      simpa [List.filter_cons] using ih
    · have h1 : (a == k) = false := by simpa using h
      have h2 : (k == a) = false := by simpa using Ne.symm h
      simp [List.filter_cons, h1, List.lookup, h2, ih]

/-- After `delete_state` the user has no conversation state. -/
theorem get_state_delete (uid : Nat) (states : StateMap) :
    get_state (delete_state uid states) uid = none :=
  lookup_erase_key uid states

/-- After `set_state` the user's conversation state is the one written. -/
theorem get_state_set (uid : Nat) (st : UserState) (states : StateMap) :
    get_state (set_state uid st states) uid = some st := by
  simp [get_state, set_state, List.lookup]

/-- After `remove_file` the path is gone. -/
theorem get_size_remove (path : String) (fs : Fs) :
    get_size (remove_file fs path) path = none :=
  lookup_erase_key path fs

/-- After `write_file` the path holds the written size. -/
theorem get_size_write (path : String) (sz : Nat) (fs : Fs) :
    get_size (write_file fs path sz) path = some sz := by
  simp [get_size, write_file, List.lookup]

/-- A user absent from a non-empty allow-list fails `is_user_allowed`. -/
theorem is_user_allowed_eq_false {allowed : List Nat} {uid : Nat}
    (h1 : allowed ≠ []) (h2 : uid ∉ allowed) :
    is_user_allowed allowed uid = false := by
  simp [is_user_allowed, List.isEmpty_iff, h1, h2]

/-! ## Concrete fixtures used by witnesses and counterexamples -/

/-- A stored token. -/
def tdW : TokenData :=
  { token := "tok", refresh_token := some "rt", token_uri := "uri"
    client_id := "cid", client_secret := "sec", scopes := ["yt.upload"] }

/-- A benign environment: nothing expired, download writes 5 bytes, the
upload completes on the first chunk. -/
def envW : Env :=
  { now := 7, oauth_url := "https://accounts.example/auth", gen_name := "20240101_120000"
    exchange_code := fun _ => none
    expired := fun _ => false
    do_refresh := fun _ => ("tok2", some "rt")
    download := .written 5
    transport := [.complete "vid123"] }

/-- Allow-list containing only user 1. -/
def cfgW : BotCfg := { allowed_users := [1], max_file_size := 2147483648 }

/-- Database where user 1 is registered and authenticated. -/
def dbW : Db :=
  { users := [1], authenticated := [1], oauth_tokens := [(1, tdW)], uploads := [] }

/-- One pending file. -/
def fiW : FileInfo :=
  { file_id := "f1", file_name := "a.mp4", file_size := 10
    duration := some 3, mime_type := some "video/mp4" }

/-- A conversation state at the title step with a pending file. -/
def stW : UserState := { state := .waiting_title, timestamp := 0, file := some fiW }

/-- User 2 (not on the allow-list) holds the state `stW`. -/
def statesW : StateMap := [(2, stW)]

/-- Empty temp directory. -/
def fsW : Fs := []

/-! ## Claims -/

/-- C2 is false as stated: `upload_video` takes `privacy_status` as a
parameter and submits exactly the caller-suggested value, so a caller passing
"public" does override the "private" default. -/
theorem caller_can_override_privacy :
    (upload_video envW "f.mp4" tdW "t" "d" none "public").body.privacyStatus = "public" ∧
    (upload_video envW "f.mp4" tdW "t" "d" none "public").body.privacyStatus ≠ "private" := by
  decide

/-- C2 (amended): the submitted metadata always has category fixed to "22"
and made-for-kids fixed to false, while its privacy status equals the
caller-supplied `privacy_status` argument ("private" is only the default, not
enforced); the one in-repo call path, `_upload_with_progress`, always passes
"private". -/
theorem upload_metadata_policy (env : Env) (fp : String) (td : TokenData)
    (title description : String) (tags : Option (List String)) (ps : String) :
    (upload_video env fp td title description tags ps).body =
      { title := title, description := description, tags := tags.getD []
        categoryId := "22", privacyStatus := ps, selfDeclaredMadeForKids := false } ∧
    (upload_with_progress env fp td title description).body.privacyStatus = "private" := by
  exact ⟨rfl, rfl⟩

/-- C9: `refresh_token_if_needed` on a non-expired credential returns it
unchanged with zero refresh round-trips, and a second call on the result again
performs zero refresh round-trips. -/
theorem ensure_fresh_idempotent (env : Env) (td : TokenData)
    (h : env.expired td = false) :
    refresh_token_if_needed env td = (td, 0) ∧
    refresh_token_if_needed env (refresh_token_if_needed env td).1 = (td, 0) := by
  have h1 : refresh_token_if_needed env td = (td, 0) := by
    simp [refresh_token_if_needed, h]
  exact ⟨h1, by rw [h1]; exact h1⟩

/-- C9 witness: concrete fresh credential. -/
theorem ensure_fresh_idempotent_witness :
    refresh_token_if_needed envW tdW = (tdW, 0) ∧
    refresh_token_if_needed envW (refresh_token_if_needed envW tdW).1 = (tdW, 0) :=
  ensure_fresh_idempotent envW tdW rfl

/-- C4: on a transport that always returns a retriable (5xx) error the loop
makes exactly 6 transmission attempts (1 initial + 5 retries) with backoff
sleeps 2^1 .. 2^5 between consecutive attempts and then reports failure; on a
non-retriable error on the first attempt it reports failure after exactly one
attempt with no sleep. -/
theorem upload_retry_cap :
    (∀ s n, retriable_status s = true → 6 ≤ n →
      next_chunk_loop (List.replicate n (.httpError s)) 0 =
        (none, 6, [2, 4, 8, 16, 32])) ∧
    (∀ s rest, retriable_status s = false →
      next_chunk_loop (.httpError s :: rest) 0 = (none, 1, [])) := by
  constructor
  · intro s n hs hn
    obtain ⟨k, rfl⟩ : ∃ k, n = k + 6 := ⟨n - 6, by omega⟩
    have h5 : ∀ l, next_chunk_loop (.httpError s :: l) 5 = (none, 1, []) := by
      intro l; simp [next_chunk_loop, hs]
    have h4 : ∀ l, next_chunk_loop (.httpError s :: .httpError s :: l) 4 =
        (none, 2, [32]) := by
      intro l; simp [next_chunk_loop, hs, h5]
    have h3 : ∀ l, next_chunk_loop
        (.httpError s :: .httpError s :: .httpError s :: l) 3 =
        (none, 3, [16, 32]) := by
      intro l; simp [next_chunk_loop, hs, h4]
    have h2 : ∀ l, next_chunk_loop
        (.httpError s :: .httpError s :: .httpError s :: .httpError s :: l) 2 =
        (none, 4, [8, 16, 32]) := by
      intro l; simp [next_chunk_loop, hs, h3]
    have h1 : ∀ l, next_chunk_loop
        (.httpError s :: .httpError s :: .httpError s :: .httpError s ::
          .httpError s :: l) 1 =
        (none, 5, [4, 8, 16, 32]) := by
      intro l; simp [next_chunk_loop, hs, h2]
    have h0 : ∀ l, next_chunk_loop
        (.httpError s :: .httpError s :: .httpError s :: .httpError s ::
          .httpError s :: .httpError s :: l) 0 =
        (none, 6, [2, 4, 8, 16, 32]) := by
      intro l; simp [next_chunk_loop, hs, h1]
    exact h0 (List.replicate k (.httpError s))
  · intro s rest hs
    simp [next_chunk_loop, hs]

/-- C4 witness: six attempts on a constantly-503 transport, one attempt on a
403. -/
theorem upload_retry_cap_witness :
    next_chunk_loop (List.replicate 6 (.httpError 503)) 0 =
      (none, 6, [2, 4, 8, 16, 32]) ∧
    next_chunk_loop [.httpError 403] 0 = (none, 1, []) :=
  ⟨upload_retry_cap.1 503 6 (by decide) (by decide),
   upload_retry_cap.2 403 [] (by decide)⟩

/-- C1 is false as stated: `handle_cancel` performs no allow-list check.
User 2 is absent from the non-empty allow-list `[1]` and holds a conversation
state, yet the cancel command is not answered with the authorization-failure
response and the user's ConversationState is deleted (mutated). -/
theorem cancel_skips_authorization :
    cfgW.allowed_users ≠ [] ∧
    2 ∉ cfgW.allowed_users ∧
    (handle_update envW cfgW 2 none dbW statesW fsW (.cmd .cancel)).1 =
      .text "✅ Operation cancelled." ∧
    (handle_update envW cfgW 2 none dbW statesW fsW (.cmd .cancel)).1 ≠
      not_authorized_reply ∧
    get_state statesW 2 = some stW ∧
    get_state (handle_update envW cfgW 2 none dbW statesW fsW (.cmd .cancel)).2.1 2 =
      none := by
  decide

/-- C1 (amended): for the commands start, auth, upload, history, stats and
help, and for every media event, a user whose id is absent from a non-empty
allow-list is rejected with the uniform authorization-failure response before
any other check (for any database and any conversation state), and the user's
ConversationState, the database and the filesystem are left unchanged.  The
cancel command is not gated: `handle_cancel` deletes any existing state and
acknowledges for any user. -/
theorem authorization_gate (env : Env) (cfg : BotCfg) (uid : Nat)
    (first_name : Option String) (db : Db) (states : StateMap) (fs : Fs) (e : InEvent)
    (h1 : cfg.allowed_users ≠ []) (h2 : uid ∉ cfg.allowed_users)
    (hg : auth_gated e = true) :
    handle_update env cfg uid first_name db states fs e =
      (not_authorized_reply, states, db, fs) := by
  have hall := is_user_allowed_eq_false h1 h2
  cases e with
  | cmd c =>
    cases c with
    | start => simp [handle_update, handle_command, handle_start, hall]
    | auth => simp [handle_update, handle_command, handle_auth, hall]
    | upload => simp [handle_update, handle_command, handle_upload_command, hall]
    | history => simp [handle_update, handle_command, handle_history, hall]
    | stats => simp [handle_update, handle_command, handle_stats, hall]
    | help => simp [handle_update, handle_command, handle_help, hall]
    | cancel => simp [auth_gated] at hg
  | media f => simp [handle_update, handle_video, hall]
  | text s => simp [auth_gated] at hg

/-- C1 witness: the start command from user 2 (off the allow-list `[1]`) is
rejected with the state, database and filesystem untouched. -/
theorem authorization_gate_witness :
    handle_update envW cfgW 2 none dbW statesW fsW (.cmd .start) =
      (not_authorized_reply, statesW, dbW, fsW) :=
  authorization_gate envW cfgW 2 none dbW statesW fsW (.cmd .start)
    (by decide) (by decide) (by decide)

/-- An expired credential (under `envR`). -/
def tdExpired : TokenData :=
  { token := "oldtok", refresh_token := some "rr", token_uri := "uri"
    client_id := "cid", client_secret := "sec", scopes := ["yt.upload"] }

/-- Environment where exactly the credential with access token "oldtok" is
expired and refreshing yields access token "newtok". -/
def envR : Env :=
  { envW with
    expired := fun td => td.token == "oldtok"
    do_refresh := fun _ => ("newtok", some "rr") }

/-- Database where user 1's persisted credential is the expired one. -/
def dbR : Db :=
  { users := [1], authenticated := [1], oauth_tokens := [(1, tdExpired)], uploads := [] }

/-- C3 is false: during an upload with an expired stored credential the
refresh succeeds (one round-trip, access token "oldtok" becomes "newtok") and
the upload itself succeeds, yet after the orchestration the persisted store
still returns the stale credential — nothing ever calls `save_oauth_token`
with the refreshed data. -/
theorem refresh_not_persisted :
    (refresh_token_if_needed envR tdExpired).2 = 1 ∧
    (refresh_token_if_needed envR tdExpired).1.token = "newtok" ∧
    (upload_with_progress envR (temp_path fiW) tdExpired "t" "d").refreshCount = 1 ∧
    (upload_video_to_youtube envR 1 dbR stW fsW).2.1.uploads.length = 1 ∧
    (upload_video_to_youtube envR 1 dbR stW fsW).2.1.get_oauth_token 1 = some tdExpired ∧
    tdExpired.token = "oldtok" := by
  decide

/-- C3 (amended): a successful refresh updates only the in-memory token data
used by the current upload (`upload_video` transmits with the output of
`refresh_token_if_needed`); it is never written back to the persisted store —
the orchestration leaves the `oauth_tokens` collection exactly as it was, so a
subsequent read of the stored credential yields the old access token. -/
theorem refresh_updates_memory_only (env : Env) (uid : Nat) (db : Db)
    (st : UserState) (fs : Fs) (fp : String) (td : TokenData)
    (title description : String) :
    (upload_video_to_youtube env uid db st fs).2.1.oauth_tokens = db.oauth_tokens ∧
    (upload_with_progress env fp td title description).tokenUsed =
      (refresh_token_if_needed env td).1 := by
  constructor
  · simp only [upload_video_to_youtube]
    split
    · rfl
    · split
      · rfl
      · split
        · rfl
        · split <;> rfl
  · rfl

/-- Environment whose Telegram download returns normally but writes an empty
file (`os.path.getsize` 0), which `_download_video` classifies as a failed
download. -/
def envD0 : Env := { envW with download := .written 0 }

/-- C5 is false as stated: on a failed (empty) download the orchestration
returns with the temporary file it created still on disk — the cleanup
`finally` only wraps the phase after a successful download.  Starting from an
empty temp directory, the orchestration reports a download failure yet leaves
the zero-byte temp file behind. -/
theorem temp_file_leak_on_failed_download :
    get_size fsW (temp_path fiW) = none ∧
    (upload_video_to_youtube envD0 1 dbW stW fsW).1 =
      .text "❌ Failed to download video file." ∧
    get_size (upload_video_to_youtube envD0 1 dbW stW fsW).2.2 (temp_path fiW) =
      some 0 := by
  decide

/-- C5 (amended): once the download has succeeded (the transport wrote a file
of positive size), the temporary file is removed before the orchestration
returns on both remaining paths, upload success and upload failure; but on a
failed or incomplete download any file the transport created is left on disk. -/
theorem cleanup_after_successful_download (env : Env) (uid : Nat) (db : Db)
    (st : UserState) (fs : Fs) (fi : FileInfo) (sz : Nat) (td : TokenData)
    (ht : db.get_oauth_token uid = some td) (hf : st.file = some fi)
    (hd : env.download = .written sz) (hsz : 0 < sz) :
    get_size (upload_video_to_youtube env uid db st fs).2.2 (temp_path fi) = none := by
  have hdl : download_video env fs (temp_path fi) =
      (some (temp_path fi), write_file fs (temp_path fi) sz) := by
    simp [download_video, hd, get_size_write, hsz]
  simp only [upload_video_to_youtube, ht, hf, hdl]
  split <;> simp [get_size_remove]

/-- C5 witness: with a 5-byte download and a first-chunk-complete transport
the temp file is gone when the orchestration returns. -/
theorem cleanup_after_successful_download_witness :
    get_size (upload_video_to_youtube envW 1 dbW stW fsW).2.2 (temp_path fiW) = none :=
  cleanup_after_successful_download envW 1 dbW stW fsW fiW 5 tdW
    (by decide) rfl rfl (by decide)

/-- A conversation state at the title step without a pending file. -/
def stT : UserState := { state := .waiting_title, timestamp := 0 }

/-- User 1 at the title step. -/
def statesT : StateMap := [(1, stT)]

/-- A conversation state at the description step with a pending file and a
title already collected. -/
def stD : UserState :=
  { state := .waiting_description, timestamp := 0, file := some fiW
    title := some "My Trip" }

/-- User 1 at the description step. -/
def statesD : StateMap := [(1, stD)]

/-- C6: on a text message at the title step, a (stripped) title longer than
100 characters is rejected with a validation error, leaving the state record
and every stored field unchanged; a title of at most 100 characters is stored
verbatim (overwriting any previously stored title) and the state advances to
the description step. -/
theorem title_validation (env : Env) (uid : Nat) (first_name : Option String)
    (db : Db) (states : StateMap) (fs : Fs) (text : String) (st : UserState)
    (h : get_state states uid = some st) (hs : st.state = .waiting_title) :
    (100 < (py_strip text).length →
      handle_text env uid first_name db states fs text =
        (.text "❌ Title is too long. Please keep it under 100 characters.",
          states, db, fs)) ∧
    ((py_strip text).length ≤ 100 →
      handle_text env uid first_name db states fs text =
        (.titleSet (py_strip text),
          set_state uid
            { st with title := some (py_strip text), state := .waiting_description }
            states,
          db, fs)) := by
  constructor
  · intro hl
    simp [handle_text, h, hs, handle_video_title, hl]
  · intro hl
    simp [handle_text, h, hs, handle_video_title, Nat.not_lt.mpr hl]

/-- C6 witness: " My Trip " is stripped, accepted, stored and the step
advances. -/
theorem title_validation_witness :
    handle_text envW 1 none dbW statesT fsW " My Trip " =
      (.titleSet "My Trip",
        set_state 1 { stT with title := some "My Trip", state := .waiting_description }
          statesT,
        dbW, fsW) :=
  (title_validation envW 1 none dbW statesT fsW " My Trip " stT
    (by decide) rfl).2 (by decide)

/-- C7: on a text message at the description step the stored description is
the empty string when the stripped input equals "skip" case-insensitively,
and the stripped input verbatim otherwise; the orchestration and the state
transition operate on exactly that stored value. -/
theorem description_sentinel (env : Env) (uid : Nat) (first_name : Option String)
    (db : Db) (states : StateMap) (fs : Fs) (text : String) (st : UserState)
    (h : get_state states uid = some st) (hs : st.state = .waiting_description) :
    ∃ d,
      handle_text env uid first_name db states fs text =
        ((upload_video_to_youtube env uid db { st with description := some d } fs).1,
          delete_state uid (set_state uid { st with description := some d } states),
          (upload_video_to_youtube env uid db { st with description := some d } fs).2.1,
          (upload_video_to_youtube env uid db { st with description := some d } fs).2.2) ∧
      (py_lower (py_strip text) = "skip" → d = "") ∧
      (py_lower (py_strip text) ≠ "skip" → d = py_strip text) := by
  refine ⟨if py_lower (py_strip text) == "skip" then "" else py_strip text, ?_, ?_, ?_⟩
  · simp [handle_text, h, hs, handle_video_description]
  · intro hskip
    simp [hskip]
  · intro hskip
    simp [hskip]

/-- C7 witness: the input "  SKIP  " at the description step. -/
theorem description_sentinel_witness :
    ∃ d,
      handle_text envW 1 none dbW statesD fsW "  SKIP  " =
        ((upload_video_to_youtube envW 1 dbW { stD with description := some d } fsW).1,
          delete_state 1 (set_state 1 { stD with description := some d } statesD),
          (upload_video_to_youtube envW 1 dbW { stD with description := some d } fsW).2.1,
          (upload_video_to_youtube envW 1 dbW { stD with description := some d } fsW).2.2) ∧
      (py_lower (py_strip "  SKIP  ") = "skip" → d = "") ∧
      (py_lower (py_strip "  SKIP  ") ≠ "skip" → d = py_strip "  SKIP  ") :=
  description_sentinel envW 1 none dbW statesD fsW "  SKIP  " stD (by decide) rfl

/-- C8: completing the description step invokes the upload orchestration
synchronously as part of the transition — the reply, database and filesystem
the handler returns are those of `upload_video_to_youtube` on the updated
state — and afterwards the user's conversation-state record is deleted,
whatever the upload outcome (the environment, and with it upload success or
failure, is universally quantified). -/
theorem description_completion_clears_state (env : Env) (uid : Nat)
    (first_name : Option String) (db : Db) (states : StateMap) (fs : Fs)
    (text : String) (st : UserState)
    (h : get_state states uid = some st) (hs : st.state = .waiting_description) :
    get_state (handle_text env uid first_name db states fs text).2.1 uid = none ∧
    ∃ d,
      (handle_text env uid first_name db states fs text).1 =
        (upload_video_to_youtube env uid db { st with description := some d } fs).1 ∧
      (handle_text env uid first_name db states fs text).2.2.1 =
        (upload_video_to_youtube env uid db { st with description := some d } fs).2.1 ∧
      (handle_text env uid first_name db states fs text).2.2.2 =
        (upload_video_to_youtube env uid db { st with description := some d } fs).2.2 := by
  constructor
  · simp [handle_text, h, hs, handle_video_description, get_state_delete]
  · refine ⟨if py_lower (py_strip text) == "skip" then "" else py_strip text, ?_, ?_, ?_⟩
    · simp [handle_text, h, hs, handle_video_description]
    · simp [handle_text, h, hs, handle_video_description]
    · simp [handle_text, h, hs, handle_video_description]

/-- C8 witness: a failing transport (six retriable errors) still ends with
the user's state record deleted. -/
theorem description_completion_clears_state_witness :
    get_state (handle_text
      { envW with transport := List.replicate 6 (.httpError 503) }
      1 none dbW statesD fsW "great video").2.1 1 = none :=
  (description_completion_clears_state
    { envW with transport := List.replicate 6 (.httpError 503) }
    1 none dbW statesD fsW "great video" stD (by decide) rfl).1

/-- C10: the auth-code, title and description handlers act only on the
stripped message text — two raw inputs with equal stripped forms are handled
identically (same reply, same state, same database, same filesystem), so
stripping happens before any validation, sentinel comparison or storage. -/
theorem text_handlers_strip (env : Env) (uid : Nat) (first_name : Option String)
    (db : Db) (states : StateMap) (fs : Fs) (t1 t2 : String) (st : UserState)
    (h : get_state states uid = some st)
    (hst : st.state = .waiting_auth_code ∨ st.state = .waiting_title ∨
      st.state = .waiting_description)
    (heq : py_strip t1 = py_strip t2) :
    handle_text env uid first_name db states fs t1 =
      handle_text env uid first_name db states fs t2 := by
  rcases hst with hs | hs | hs <;>
    simp [handle_text, h, hs, handle_auth_code, handle_video_title,
      handle_video_description, heq]

/-- C10 witness: "  skip  " is handled exactly like "skip" at the description
step, so it is treated as the skip sentinel. -/
theorem text_handlers_strip_witness :
    handle_text envW 1 none dbW statesD fsW "  skip  " =
      handle_text envW 1 none dbW statesD fsW "skip" :=
  text_handlers_strip envW 1 none dbW statesD fsW "  skip  " "skip" stD
    (by decide) (Or.inr (Or.inr rfl)) (by decide)

end YtF
